import Mathlib

/-
  Verification development for the backup/restore engine of `folder.py`
  (win11-init repository).

  The Python source is shallowly embedded: pure helpers become Lean
  functions; interactions with the operating system (subprocess calls,
  the filesystem, service control) are modelled by explicit environment
  records that carry the outcome the OS would have produced, and each
  Python function becomes a Lean function of its inputs and such an
  environment.  Paths produced by `os.path.normpath` are modelled as
  lists of path components.
-/

namespace FolderPy

/-! ### Strings and paths -/

/-- Substring containment on character lists; `needle.isPrefixOf hay` at
each suffix.  Models Python's `needle in hay` on strings. -/
def listContainsSub (needle : List Char) : List Char → Bool
  | [] => needle.isEmpty
  | c :: rest => needle.isPrefixOf (c :: rest) || listContainsSub needle rest

/-- Python `needle in hay` for strings. -/
def strContainsSub (needle hay : String) : Bool :=
  listContainsSub needle.data hay.data

/-- A normalized absolute path (`os.path.normpath` output), as its list of
components. -/
abbrev PyPath := List String

/-- `os.path.basename` on a normalized path: its last component (empty
string for the empty path, as Python returns for a bare root). -/
def basename (p : PyPath) : String := (p.getLast?).getD ("")

/-- `os.path.dirname` on a normalized path: all but the last component. -/
def dirname (p : PyPath) : PyPath := p.dropLast

/-- Python truthiness of an optional string (`if s:`): `None` and the
empty string are falsy. -/
def pyTruthyOpt : Option String → Bool
  | none => false
  | some s => !s.isEmpty

/-! ### Service controller (`get_service_status`, `stop_service`)

`sc query NAME` is run with `capture_output` and no `check=True`, so the
subprocess call returns normally whenever the `sc` process runs at all
(whatever its exit code); only a raised exception in `subprocess.run`
itself makes `get_service_status` return `None`.  The query outcome is
therefore modelled as `Option String`: `none` for a raised exception,
`some out` for a completed process with stdout `out`. -/

/-- `get_service_status` from `folder.py`: substring match on the query
stdout; `None` (here `none`) only when the subprocess call raises. -/
def get_service_status (queryOut : Option String) : Option String :=
  match queryOut with
  | none => none
  | some out =>
    if strContainsSub ("RUNNING") out then some ("running")
    else if strContainsSub ("STOPPED") out then some ("stopped")
    else some ("unknown")

/-- Environment for one `stop_service` call: the stdout of the initial
`sc query`, whether the `sc stop` subprocess call raises, and the stdout
of the `sc query` issued at each polling iteration. -/
structure StopEnv where
  initialQuery : Option String
  stopCmdRaises : Bool
  polls : Nat → Option String

/-- Result of `stop_service`: the returned boolean, whether the `sc stop`
command was reached, and how many polling queries were made. -/
structure StopOutcome where
  ok : Bool
  issuedStop : Bool
  pollCount : Nat
deriving DecidableEq

/-- The polling loop of `stop_service`: up to `timeout` iterations, each
sleeping one second then querying; stops early on observed `stopped`.
Returns the boolean result and the number of polls made. -/
def stop_poll_loop (polls : Nat → Option String) : Nat → Nat → Bool × Nat
  | 0, i => (false, i)
  | t + 1, i =>
    if get_service_status (polls i) = some ("stopped") then (true, i + 1)
    else stop_poll_loop polls t (i + 1)

/-- `stop_service` from `folder.py`: returns `True` at once if already
stopped; `False` at once (no stop request, no polling) if the status
query returned `None`; otherwise issues `sc stop` and polls once per
second up to `timeout` seconds. -/
def stop_service (env : StopEnv) (timeout : Nat) : StopOutcome :=
  let status := get_service_status env.initialQuery
  if status = some ("stopped") then { ok := true, issuedStop := false, pollCount := 0 }
  else if status = none then { ok := false, issuedStop := false, pollCount := 0 }
  else if env.stopCmdRaises then { ok := false, issuedStop := true, pollCount := 0 }
  else
    let r := stop_poll_loop env.polls timeout 0
    { ok := r.1, issuedStop := true, pollCount := r.2 }

/-! ### Copy engine (`smart_copy2`, `make_ignore_func`, `copytree`) -/

/-- A file's stat-relevant data: size, modification time (a rational,
a faithful superset of the float `st_mtime`), and an abstract content
identifier. -/
structure PyFile where
  size : Nat
  mtime : Rat
  content : Nat
deriving DecidableEq

/-- Python `int()` on a rational: truncation toward zero.  Since
`q = q.num / q.den` exactly and `Int.div` truncates toward zero, this is
`q.num.div q.den`. -/
def pytrunc (q : Rat) : Int := Int.tdiv q.num (q.den : Int)

/-- `smart_copy2` from `folder.py`, on one source file and the optional
destination file: returns the resulting destination file and whether the
copy was skipped.  If the destination exists with equal size and equal
truncated mtime, it is returned unchanged (skip); otherwise
`shutil.copy2` copies content and metadata, making the destination equal
to the source. -/
def smart_copy2 (src : PyFile) (dst : Option PyFile) : PyFile × Bool :=
  match dst with
  | some d =>
    if src.size = d.size ∧ pytrunc src.mtime = pytrunc d.mtime then (d, true)
    else (src, false)
  | none => (src, false)

/-- `DEFAULT_EXCLUDE_FILES` from `folder.py`. -/
def DEFAULT_EXCLUDE_FILES : List String :=
  ["desktop.ini", "Thumbs.db", ".DS_Store"]

/-- The effective exclude set built inside `make_ignore_func`:
`set(DEFAULT_EXCLUDE_FILES)` unioned with the caller-supplied names. -/
def all_excludes (exclude_list : List String) : List String :=
  DEFAULT_EXCLUDE_FILES ++ exclude_list

/-- The closure returned by `make_ignore_func`: given the names in one
directory, the sublist of names belonging to the effective exclude set
(the `directory` argument is unused by the Python code). -/
def make_ignore_func (exclude_list : List String) (files : List String) : List String :=
  files.filter (fun f => decide (f ∈ all_excludes exclude_list))

mutual
/-- A filesystem tree: a file or a directory of named children. -/
inductive FsTree where
  | file (f : PyFile)
  | dir (children : FsForest)
/-- The ordered children of a directory. -/
inductive FsForest where
  | nil
  | cons (name : String) (t : FsTree) (rest : FsForest)
end

/-- The top-level names of a forest (`os.listdir`). -/
def forestNames : FsForest → List String
  | .nil => []
  | .cons n _ rest => n :: forestNames rest

mutual
/-- `shutil.copytree(src, dst, ignore=make_ignore_func(exclude_list), ...)`
restricted to what it creates: at each directory the ignore function is
applied to the directory's listing once, and the non-ignored entries are
copied recursively. -/
def copytree (exclude_list : List String) : FsTree → FsTree
  | .file f => .file f
  | .dir ch => .dir (copyForest exclude_list (make_ignore_func exclude_list (forestNames ch)) ch)
/-- One directory level of `copytree`: skip entries named in `ignored`,
recurse into the rest. -/
def copyForest (exclude_list ignored : List String) : FsForest → FsForest
  | .nil => .nil
  | .cons n t rest =>
    if n ∈ ignored then copyForest exclude_list ignored rest
    else .cons n (copytree exclude_list t) (copyForest exclude_list ignored rest)
end

mutual
/-- All entry names occurring anywhere in a tree, at any depth. -/
def treeNames : FsTree → List String
  | .file _ => []
  | .dir ch => forestAllNames ch
/-- All entry names occurring anywhere in a forest, at any depth. -/
def forestAllNames : FsForest → List String
  | .nil => []
  | .cons n t rest => n :: (treeNames t ++ forestAllNames rest)
end

/-! ### Metadata ledger -/

/-- One record of the `paths` sequence of the metadata ledger.  In the
Python dict, the `service` key is present only for a truthy service name
and the `exclude` key only for a nonempty list; `none` and `[]` model
the absent keys. -/
structure MetaItem where
  source : String
  source_expanded : PyPath
  backup : String
  type : String
  service : Option String
  exclude : List String
deriving DecidableEq

/-- The state of the ledger file at a destination: `none` when the file
does not exist, `some none` when it exists but `json.load` raises,
`some (some items)` when it parses to a document with the given
`paths`. -/
abbrev LedgerFile := Option (Option (List MetaItem))

/-- The `existing_backup_map` built at the start of `backup`: for an
absent file, or a file whose parse raises (caught by the bare
`except: pass`), the map stays empty; otherwise each record contributes
`source_expanded -> backup`. -/
def loadExistingMap (file : LedgerFile) : List (PyPath × String) :=
  match file with
  | some (some items) => items.map (fun m => (m.source_expanded, m.backup))
  | _ => []

/-- Python dict lookup on an insertion-ordered association list: the
last binding of a key wins. -/
def dictLookup (m : List (PyPath × String)) (k : PyPath) : Option String :=
  match m with
  | [] => none
  | (k2, v) :: rest =>
    match dictLookup rest k with
    | some v2 => some v2
    | none => if k2 = k then some v else none

/-- The folder-name synthesis of a fresh backup entry:
`f"{parent_name}_{base_name}"` from the expanded source path. -/
def synthName (p : PyPath) : String :=
  basename (dirname p) ++ ("_") ++ basename p

/-- The backup folder-name decision of `backup` (its
`custom_destination > existing metadata > auto` chain): a truthy fixed
destination wins; else a prior assignment for the same expanded source;
else `<parent>_<leaf>` is synthesized. -/
def resolve_backup_name (expanded : PyPath) (existingMap : List (PyPath × String))
    (custom : Option String) : String :=
  if pyTruthyOpt custom then custom.getD ("")
  else
    match dictLookup existingMap expanded with
    | some n => n
    | none => synthName expanded

/-- How `restore` obtains the ledger: a missing file is reported and the
function returns `False` (graceful); an existing file is read by a bare
`json.load` with no handler, so a parse failure raises out of `restore`
(an unhandled error); otherwise the document is used. -/
inductive RestoreLoadOutcome where
  | noMeta
  | crashed
  | loaded (items : List MetaItem)
deriving DecidableEq

/-- The ledger-loading step of `restore` on the state of the ledger
file. -/
def restore_load (file : LedgerFile) : RestoreLoadOutcome :=
  match file with
  | none => .noMeta
  | some none => .crashed
  | some (some items) => .loaded items

/-! ### Backup orchestrator -/

/-- One element of the `backup_paths` configuration list: a bare string
or an object with optional fields. -/
inductive ConfigItem where
  | str (s : String)
  | obj (path : String) (service : Option String) (exclude : List String)
        (destination : Option String)
deriving DecidableEq

/-- The result of `normalize_path_item`. -/
structure PathItem where
  path : String
  service : Option String
  exclude : List String
  destination : Option String
deriving DecidableEq

/-- `normalize_path_item` from `folder.py`. -/
def normalize_path_item : ConfigItem → PathItem
  | .str s => { path := s, service := none, exclude := [], destination := none }
  | .obj p sv ex d => { path := p, service := sv, exclude := ex, destination := d }

/-- The OS-dependent outcomes one backup entry can observe: the stdout of
its `sc query` (when a service is named), the environment of its
`stop_service` call (when one is made), whether the expanded source
exists, whether it is a file, and whether the copy call returns without
raising. -/
structure EntryEnv where
  queryOut : Option String
  stopEnv : StopEnv
  pathExists : Bool
  isFile : Bool
  copyOk : Bool

/-- A copy call made by `backup`: a single-file `smart_copy2`, or a
`shutil.copytree` carrying the effective exclude set built by
`make_ignore_func`.  The file form has no exclude argument, as in the
source. -/
inductive CopyAction where
  | fileCopy (src : PyPath) (dest : String)
  | dirCopy (src : PyPath) (dest : String) (excludes : List String)
deriving DecidableEq

/-- The running state of one `backup` invocation: the two counters, the
`services_to_restart` list, the `metadata["paths"]` list built so far,
and the log of copy calls attempted. -/
structure BackupState where
  success : Nat
  fail : Nat
  restart : List String
  paths : List MetaItem
  copies : List CopyAction
deriving DecidableEq

/-- The initial state of a `backup` run. -/
def initState : BackupState :=
  { success := 0, fail := 0, restart := [], paths := [], copies := [] }

/-- The body of the per-entry loop of `backup`, for one entry and its
environment.  Mirrors the source's control flow: service gate first
(query; if running, stop; on stop failure count a failure and continue;
on successful stop append to `services_to_restart`), then the existence
check, then folder-name resolution, then the copy in a `try` whose
`except` counts a failure. -/
def processEntry (expand : String → PyPath) (existingMap : List (PyPath × String))
    (st : BackupState) (item : ConfigItem) (env : EntryEnv) : BackupState :=
  let info := normalize_path_item item
  let expanded := expand info.path
  let svcRunning := pyTruthyOpt info.service
      && (get_service_status env.queryOut == some ("running"))
  if svcRunning && !(stop_service env.stopEnv 30).ok then
    { st with fail := st.fail + 1 }
  else
    let restart1 := if svcRunning then st.restart ++ [info.service.getD ("")] else st.restart
    if !env.pathExists then
      { st with fail := st.fail + 1, restart := restart1 }
    else
      let folder_name := resolve_backup_name expanded existingMap info.destination
      let action :=
        if env.isFile then CopyAction.fileCopy expanded folder_name
        else CopyAction.dirCopy expanded folder_name (all_excludes info.exclude)
      if env.copyOk then
        let meta : MetaItem :=
          { source := info.path
            source_expanded := expanded
            backup := folder_name
            type := if env.isFile then ("file") else ("directory")
            service := if pyTruthyOpt info.service then info.service else none
            exclude := info.exclude }
        { st with success := st.success + 1, restart := restart1,
                  paths := st.paths ++ [meta], copies := st.copies ++ [action] }
      else
        { st with fail := st.fail + 1, restart := restart1,
                  copies := st.copies ++ [action] }

/-- The per-entry loop of `backup` over the registered entries, each
paired with its environment. -/
def backupFold (expand : String → PyPath) (existingMap : List (PyPath × String)) :
    List (ConfigItem × EntryEnv) → BackupState → BackupState
  | [], st => st
  | (item, env) :: rest, st =>
    backupFold expand existingMap rest (processEntry expand existingMap st item env)

/-- A whole `backup` run: load the existing map from the ledger file at
the destination, then run the loop from the initial state.  The saved
ledger's `paths` are the `paths` of the final state; the save itself is
unconditional in the source (it follows the loop). -/
def backup_run (expand : String → PyPath) (file : LedgerFile)
    (entries : List (ConfigItem × EntryEnv)) : BackupState :=
  backupFold expand (loadExistingMap file) entries initState

/-! ### Restore orchestrator (per-group service handling) -/

/-- The OS-dependent outcomes one restore item can observe: whether the
backed-up item exists, and whether the removal and the copy return
without raising. -/
structure RItemEnv where
  backupExists : Bool
  removeOk : Bool
  copyOk : Bool
deriving DecidableEq

/-- Success/failure counters of the restore item loop. -/
structure RCounts where
  success : Nat
  fail : Nat
deriving DecidableEq

/-- The body of the per-item loop of `restore`: a missing backup item
counts a failure; otherwise removal plus copy succeed or the `except`
counts a failure. -/
def restore_item (st : RCounts) (x : MetaItem × RItemEnv) : RCounts :=
  if !x.2.backupExists then { success := st.success, fail := st.fail + 1 }
  else if x.2.removeOk && x.2.copyOk then { success := st.success + 1, fail := st.fail }
  else { success := st.success, fail := st.fail + 1 }

/-- The item loop of `restore` over one group's items. -/
def restore_items (items : List (MetaItem × RItemEnv)) : RCounts :=
  items.foldl restore_item { success := 0, fail := 0 }

/-- Result of processing one service group in `restore`: the counters,
the final `service_was_running` flag, whether `stop_service` was called,
and whether `start_service` was called afterwards. -/
structure RestoreGroupResult where
  success : Nat
  fail : Nat
  wasRunning : Bool
  stopCalled : Bool
  restartCalled : Bool
deriving DecidableEq

/-- One iteration of the service-group loop of `restore`, as written in
the source: `service_was_running = False`; if the group names a truthy
service, query its status and compare the result with the literal
`"RUNNING"`; only on a match stop the service (on stop failure fail the
whole group), and after the items restart the service only if
`service_was_running` was set. -/
def restore_group (svc : Option String) (queryOut : Option String) (stopEnv : StopEnv)
    (items : List (MetaItem × RItemEnv)) : RestoreGroupResult :=
  if pyTruthyOpt svc then
    if get_service_status queryOut = some ("RUNNING") then
      if (stop_service stopEnv 30).ok then
        let c := restore_items items
        { success := c.success, fail := c.fail, wasRunning := true,
          stopCalled := true, restartCalled := true }
      else
        { success := 0, fail := items.length, wasRunning := true,
          stopCalled := true, restartCalled := false }
    else
      let c := restore_items items
      { success := c.success, fail := c.fail, wasRunning := false,
        stopCalled := false, restartCalled := false }
  else
    let c := restore_items items
    { success := c.success, fail := c.fail, wasRunning := false,
      stopCalled := false, restartCalled := false }

/-! ### Shared concrete sample data for witnesses and counterexamples -/

/-- A stop environment whose query raises and whose polls raise. -/
def idleStopEnv : StopEnv :=
  { initialQuery := none, stopCmdRaises := false, polls := fun _ => none }

/-- A plausible `sc query` stdout fragment of a running service. -/
def runningMsg : String := "STATE : 4  RUNNING"

/-- A plausible `sc query` stdout for a service name unknown to the
service manager (the process completes; its output names neither
RUNNING nor STOPPED). -/
def svcMissingMsg : String :=
  "The specified service does not exist as an installed service."

/-- An environment for a directory entry whose copy succeeds. -/
def envOkDir : EntryEnv :=
  { queryOut := none
    stopEnv := idleStopEnv
    pathExists := true
    isFile := false
    copyOk := true }

/-! ### Theorems -/

/-- `get_service_status` only ever returns `none`, `"running"`,
`"stopped"` or `"unknown"`; in particular it never returns the
uppercase literal `"RUNNING"` that `restore` compares against. -/
theorem get_service_status_ne_upper (q : Option String) :
    get_service_status q ≠ some ("RUNNING") := by
  cases q with
  | none => simp [get_service_status]
  | some out =>
    simp only [get_service_status]
    split
    · simp
    · split <;> simp

/-- Claim C2: during restore, a group's service should be stopped when
its queried status is running, recorded as running, and restarted after
the group.  The code compares the query result against the literal
`"RUNNING"`, while `get_service_status` returns the lowercase
`"running"`, so the comparison never succeeds: for every input the
group is processed with `service_was_running` still false, no stop call
and no restart call — even when the query output shows the service
running. -/
theorem C2_thm :
    (∀ (svc : Option String) (q : Option String) (se : StopEnv)
        (items : List (MetaItem × RItemEnv)),
      (restore_group svc q se items).stopCalled = false ∧
      (restore_group svc q se items).wasRunning = false ∧
      (restore_group svc q se items).restartCalled = false) ∧
    get_service_status (some (runningMsg)) = some ("running") := by
  refine ⟨?_, by decide⟩
  intro svc q se items
  have h := get_service_status_ne_upper q
  rw [restore_group, if_neg h]
  split <;> exact ⟨rfl, rfl, rfl⟩

/-- Claim C4, counterexample: at restore time a ledger file that exists
but fails to parse is NOT treated as absent — the absent file is
reported gracefully (`noMeta`), while the malformed file makes the bare
`json.load` raise out of `restore` (`crashed`). -/
theorem C4_counterexample :
    restore_load (some none) = RestoreLoadOutcome.crashed ∧
    restore_load none = RestoreLoadOutcome.noMeta ∧
    restore_load (some none) ≠ restore_load none := by
  refine ⟨rfl, rfl, by decide⟩

/-- Claim C4, amended: at the start of a backup run a malformed ledger
file is treated exactly as an absent one (the existing map is empty and
the whole run proceeds identically, i.e. fresh and non-incremental,
without aborting); at the start of a restore run a missing ledger is
reported gracefully, but a malformed ledger raises an unhandled parse
error instead of being treated as absent. -/
theorem C4_thm :
    loadExistingMap (some none) = [] ∧
    loadExistingMap none = [] ∧
    (∀ (expand : String → PyPath) (entries : List (ConfigItem × EntryEnv)),
      backup_run expand (some none) entries = backup_run expand none entries) ∧
    restore_load none = RestoreLoadOutcome.noMeta ∧
    restore_load (some none) = RestoreLoadOutcome.crashed := by
  refine ⟨rfl, rfl, fun expand entries => rfl, rfl, rfl⟩

/-- Claim C5, counterexample: for a service name unknown to the service
manager the `sc query` subprocess completes (only a raised exception
yields `None`), its output names neither RUNNING nor STOPPED, and the
status function returns `"unknown"` — the same value as for any other
unrecognized output, not a distinct not-found value; `stop_service`
then does not fail immediately: it issues the stop request and polls
the full timeout (here 2 polls) before returning false. -/
theorem C5_counterexample :
    get_service_status (some (svcMissingMsg)) = some ("unknown") ∧
    stop_service
      { initialQuery := some (svcMissingMsg), stopCmdRaises := false,
        polls := fun _ => some (svcMissingMsg) } 2
      = { ok := false, issuedStop := true, pollCount := 2 } := by
  exact ⟨by decide, by decide⟩

/-- Claim C5, amended: `get_service_status` returns `None` exactly when
the query subprocess raises — a query that completes never yields
`None`, so an unknown service name (whose `sc query` completes with an
error message) yields `"unknown"`, not a distinct not-found value.
`stop_service` returns false immediately, without issuing a stop
request or polling, exactly when the status is `None`, and it still
succeeds as a no-op when the status is `"stopped"`. -/
theorem C5_thm (out : String) (env : StopEnv) (t : Nat) :
    get_service_status (some out) ≠ none ∧
    get_service_status none = none ∧
    (stop_service env t = { ok := false, issuedStop := false, pollCount := 0 } ↔
      get_service_status env.initialQuery = none) ∧
    (get_service_status env.initialQuery = some ("stopped") →
      stop_service env t = { ok := true, issuedStop := false, pollCount := 0 }) := by
  refine ⟨?_, rfl, ?_, ?_⟩
  · simp only [get_service_status]
    split
    · simp
    · split <;> simp
  · by_cases h1 : get_service_status env.initialQuery = some ("stopped")
    · simp [stop_service, h1]
    · by_cases h2 : get_service_status env.initialQuery = none
      · simp [stop_service, h1, h2]
      · simp only [stop_service, h1, h2, if_false, if_neg h1, if_neg h2]
        simp [h2]
        split <;> simp
  · intro h
    simp [stop_service, h]

/-- Appending the same string on the right is cancellable. -/
theorem str_append_cancel_right (a b c : String) (h : a ++ c = b ++ c) : a = b := by
  have hd : a.data ++ c.data = b.data ++ c.data := by
    have h2 := congrArg String.data h
    simpa [String.data_append] using h2
  have h3 : a.data = b.data := List.append_cancel_right hd
  calc a = String.mk a.data := rfl
    _ = String.mk b.data := congrArg String.mk h3
    _ = b := rfl

/-- One `backup` loop step adds a metadata record exactly when it adds a
success: the difference between the record count and the success
counter is invariant. -/
theorem processEntry_paths_success (expand : String → PyPath)
    (existingMap : List (PyPath × String)) (st : BackupState) (item : ConfigItem)
    (env : EntryEnv) :
    (processEntry expand existingMap st item env).paths.length + st.success
      = (processEntry expand existingMap st item env).success + st.paths.length := by
  simp only [processEntry]
  split_ifs <;> simp <;> omega

/-- Along the `backup` loop, the record count minus the start state's
record count always equals the success counter minus the start state's
success counter. -/
theorem backupFold_paths_success (expand : String → PyPath)
    (existingMap : List (PyPath × String)) :
    ∀ (entries : List (ConfigItem × EntryEnv)) (st : BackupState),
      (backupFold expand existingMap entries st).paths.length + st.success
        = (backupFold expand existingMap entries st).success + st.paths.length
  | [], st => Nat.add_comm _ _
  | (item, env) :: rest, st => by
    have hstep := processEntry_paths_success expand existingMap st item env
    have hrec := backupFold_paths_success expand existingMap rest
      (processEntry expand existingMap st item env)
    rw [backupFold]
    omega

/-- The records added to the ledger by one `backup` loop step carry the
step's own source and expanded source. -/
theorem processEntry_paths_mem (expand : String → PyPath)
    (existingMap : List (PyPath × String)) (st : BackupState) (item : ConfigItem)
    (env : EntryEnv) (m : MetaItem)
    (hm : m ∈ (processEntry expand existingMap st item env).paths) :
    m ∈ st.paths ∨ (m.source = (normalize_path_item item).path ∧
      m.source_expanded = expand ((normalize_path_item item).path)) := by
  simp only [processEntry] at hm
  split_ifs at hm <;> simp only [List.mem_append, List.mem_singleton] at hm
  all_goals
    first
      | exact Or.inl hm
      | rcases hm with hm | rfl <;> first | exact Or.inl hm | exact Or.inr ⟨rfl, rfl⟩

/-- Every metadata record present after the `backup` loop was either
present at the start or created this run from one of the entries. -/
theorem backupFold_paths_origin (expand : String → PyPath)
    (existingMap : List (PyPath × String)) :
    ∀ (entries : List (ConfigItem × EntryEnv)) (st : BackupState)
      (m : MetaItem), m ∈ (backupFold expand existingMap entries st).paths →
      m ∈ st.paths ∨ ∃ p ∈ entries, m.source = (normalize_path_item p.1).path ∧
        m.source_expanded = expand ((normalize_path_item p.1).path)
  | [], st, m, hm => Or.inl hm
  | (item, env) :: rest, st, m, hm => by
    rw [backupFold] at hm
    rcases backupFold_paths_origin expand existingMap rest
        (processEntry expand existingMap st item env) m hm with hin | ⟨p, hp, hsrc⟩
    · rcases processEntry_paths_mem expand existingMap st item env m hin with h | h
      · exact Or.inl h
      · exact Or.inr ⟨(item, env), List.mem_cons_self _ _, h⟩
    · exact Or.inr ⟨p, List.mem_cons_of_mem _ hp, hsrc⟩

/-- A ledger record from an earlier run: source `p0`, expanded to
`C:\a\b`, backed up under folder name `X`. -/
def priorRecord : MetaItem :=
  { source := "p0"
    source_expanded := ["C:", "a", "b"]
    backup := "X"
    type := "directory"
    service := none
    exclude := [] }

/-- An environment for an entry whose expanded source does not exist. -/
def envMissing : EntryEnv :=
  { queryOut := none
    stopEnv := idleStopEnv
    pathExists := false
    isFile := false
    copyOk := true }

/-- Claim C1, counterexample: a destination ledger holds a record `r0`
for source `p0`; the next run's only entry is `p0` and it fails (the
expanded source does not exist).  The prior record is loaded into the
folder-name map, yet the ledger saved at the end of the run is empty:
the previously recorded item has been removed despite this run's
failure. -/
theorem C1_counterexample :
    loadExistingMap (some (some [priorRecord])) = [(["C:", "a", "b"], "X")] ∧
    (backup_run (fun _ => ["C:", "a", "b"]) (some (some [priorRecord]))
        [(ConfigItem.str ("p0"), envMissing)]).paths = [] ∧
    (backup_run (fun _ => ["C:", "a", "b"]) (some (some [priorRecord]))
        [(ConfigItem.str ("p0"), envMissing)]).fail = 1 := by
  exact ⟨rfl, rfl, rfl⟩

/-- Claim C1, amended: the ledger is saved unconditionally at the end of
the run (partial failures among items do not prevent the write), but it
contains exactly one record per entry that succeeded this run and
nothing else: every saved record originates from one of this run's
entries, and the record count equals the success count.  Records of the
previously loaded ledger are not carried over — only their folder-name
assignments are reused — so an item that failed this run is absent from
the saved ledger even if it was recorded before. -/
theorem C1_thm (expand : String → PyPath) (file : LedgerFile)
    (entries : List (ConfigItem × EntryEnv)) :
    (backup_run expand file entries).paths.length
      = (backup_run expand file entries).success ∧
    ∀ m ∈ (backup_run expand file entries).paths,
      ∃ p ∈ entries, m.source = (normalize_path_item p.1).path ∧
        m.source_expanded = expand ((normalize_path_item p.1).path) := by
  constructor
  · have h := backupFold_paths_success expand (loadExistingMap file) entries initState
    simpa [backup_run, initState] using h
  · intro m hm
    rcases backupFold_paths_origin expand (loadExistingMap file) entries initState m hm
      with hin | hcreated
    · simp [initState] at hin
    · exact hcreated

/-- Claim C1, witness: the amended theorem applied to a concrete run
with one successful entry. -/
theorem C1_witness :
    (backup_run (fun _ => ["C:", "a", "b"]) none
        [(ConfigItem.str ("p0"), envOkDir)]).paths.length
      = (backup_run (fun _ => ["C:", "a", "b"]) none
        [(ConfigItem.str ("p0"), envOkDir)]).success :=
  (C1_thm (fun _ => ["C:", "a", "b"]) none [(ConfigItem.str ("p0"), envOkDir)]).1

/-- An expansion in which two registered sources share a leaf name
pattern: `p1` expands to `a_b\c` and everything else to `a\b_c`. -/
def expandC3 : String → PyPath :=
  fun s => if s = "p1" then ["a_b", "c"] else ["a", "b_c"]

/-- Claim C3, counterexample: the sources expanding to `a_b\c` and
`a\b_c` both synthesize the backup folder name `a_b_c`, so the ledger
produced by one backup run over both carries duplicate `backup` values
— they are not pairwise distinct. -/
theorem C3_counterexample :
    ((backup_run expandC3 none
        [(ConfigItem.str ("p1"), envOkDir), (ConfigItem.str ("p2"), envOkDir)]).paths.map
      (fun m => m.backup)) = ["a_b_c", "a_b_c"] ∧
    ¬ ((backup_run expandC3 none
        [(ConfigItem.str ("p1"), envOkDir), (ConfigItem.str ("p2"), envOkDir)]).paths.map
      (fun m => m.backup)).Nodup := by
  exact ⟨rfl, by decide⟩

/-- Claim C3, amended: `backup` folder names within one ledger are not
pairwise distinct in general (see the counterexample, where an
underscore inside a parent folder name defeats the composition), but
the composed `<parent>_<leaf>` names do separate any two sources that
share a leaf name while having different parent folder names. -/
theorem C3_thm (p q : PyPath) (hleaf : basename p = basename q)
    (hparent : basename (dirname p) ≠ basename (dirname q)) :
    synthName p ≠ synthName q := by
  intro heq
  apply hparent
  rw [synthName, synthName, hleaf, String.append_assoc, String.append_assoc] at heq
  exact str_append_cancel_right _ _ _ heq

/-- Claim C3, witness: the amended theorem applied to the sources
`x\c` and `y\c`. -/
theorem C3_witness : synthName (["x", "c"]) ≠ synthName (["y", "c"]) :=
  C3_thm (["x", "c"]) (["y", "c"]) rfl (by decide)

/-- A stop environment whose initial query reports the service already
stopped. -/
def stoppedStopEnv : StopEnv :=
  { initialQuery := some ("STATE : 1  STOPPED"), stopCmdRaises := false,
    polls := fun _ => none }

/-- Claim C5, witness: the amended theorem applied to a query that
raises (immediate false, no stop request, no polling) and to a service
already stopped (no-op success). -/
theorem C5_witness :
    stop_service idleStopEnv 5 = { ok := false, issuedStop := false, pollCount := 0 } ∧
    stop_service stoppedStopEnv 5 = { ok := true, issuedStop := false, pollCount := 0 } :=
  ⟨((C5_thm ("x") idleStopEnv 5).2.2.1).mpr rfl,
   (C5_thm ("x") stoppedStopEnv 5).2.2.2 (by decide)⟩

/-- Claim C6: the backup folder name resolves by the precedence
`fixed destination > prior ledger assignment > synthesized
<parent>_<leaf>`, and the name is stable: a run over one entry with no
fixed destination yields the synthesized name, and a second run loading
the ledger written by the first yields the same name again, sourced
from the ledger. -/
theorem C6_thm (expanded : PyPath) (existingMap : List (PyPath × String))
    (custom : Option String) (expand : String → PyPath) (item : ConfigItem)
    (env : EntryEnv) :
    (pyTruthyOpt custom = true →
      resolve_backup_name expanded existingMap custom = custom.getD ("")) ∧
    (∀ n, custom = none → dictLookup existingMap expanded = some n →
      resolve_backup_name expanded existingMap custom = n) ∧
    (custom = none → dictLookup existingMap expanded = none →
      resolve_backup_name expanded existingMap custom = synthName expanded) ∧
    ((normalize_path_item item).destination = none →
     (normalize_path_item item).service = none →
     env.pathExists = true → env.copyOk = true →
     (backup_run expand none [(item, env)]).paths.map (fun m => m.backup)
         = [synthName (expand ((normalize_path_item item).path))] ∧
     (backup_run expand (some (some (backup_run expand none [(item, env)]).paths))
         [(item, env)]).paths.map (fun m => m.backup)
       = (backup_run expand none [(item, env)]).paths.map (fun m => m.backup)) := by
  refine ⟨?_, ?_, ?_, ?_⟩
  · intro h
    simp [resolve_backup_name, h]
  · intro n hc2 hl
    simp [resolve_backup_name, hc2, pyTruthyOpt, hl]
  · intro hc2 hl
    simp [resolve_backup_name, hc2, pyTruthyOpt, hl]
  · intro hd hs hp hc
    constructor
    · simp [backup_run, backupFold, processEntry, loadExistingMap, initState,
            hs, hd, hp, hc, pyTruthyOpt, resolve_backup_name, dictLookup]
    · simp [backup_run, backupFold, processEntry, loadExistingMap, initState,
            hs, hd, hp, hc, pyTruthyOpt, resolve_backup_name, dictLookup]

/-- Claim C6, witness: a truthy fixed destination wins, and the
stability part applied to a concrete single-entry run. -/
theorem C6_witness :
    resolve_backup_name (["a", "b"]) [] (some ("FIX")) = "FIX" ∧
    (backup_run (fun _ => ["a", "b"]) none
        [(ConfigItem.str ("z"), envOkDir)]).paths.map (fun m => m.backup)
      = [synthName (["a", "b"])] :=
  ⟨(C6_thm (["a", "b"]) [] (some ("FIX")) (fun _ => ["a", "b"])
      (ConfigItem.str ("z")) envOkDir).1 rfl,
   ((C6_thm (["a", "b"]) [] none (fun _ => ["a", "b"])
      (ConfigItem.str ("z")) envOkDir).2.2.2 rfl rfl rfl rfl).1⟩

/-- Claim C7: a single-file copy is skipped exactly when the
destination exists with equal size and equal second-truncated mtime; a
skip leaves the destination unchanged, a non-skip copies the source's
content and metadata; and rerunning on the result always skips, so an
unchanged source is never rewritten. -/
theorem C7_thm (src : PyFile) (dst : Option PyFile) :
    ((smart_copy2 src dst).2 = true ↔
      ∃ d, dst = some d ∧ src.size = d.size ∧ pytrunc src.mtime = pytrunc d.mtime) ∧
    (∀ d, dst = some d → (smart_copy2 src dst).2 = true → (smart_copy2 src dst).1 = d) ∧
    ((smart_copy2 src dst).2 = false → (smart_copy2 src dst).1 = src) ∧
    smart_copy2 src (some ((smart_copy2 src dst).1)) = ((smart_copy2 src dst).1, true) := by
  cases dst with
  | none =>
    refine ⟨by simp [smart_copy2], by simp [smart_copy2], fun _ => rfl, by simp [smart_copy2]⟩
  | some d =>
    by_cases h : src.size = d.size ∧ pytrunc src.mtime = pytrunc d.mtime
    · refine ⟨?_, ?_, ?_, ?_⟩ <;> simp [smart_copy2, h]
    · refine ⟨?_, ?_, ?_, ?_⟩ <;> simp [smart_copy2, h]

/-- Two sample files agreeing in size and truncated mtime but not in
mtime or content. -/
def fileA : PyFile := { size := 10, mtime := mkRat 7 2, content := 1 }

/-- See `fileA`. -/
def fileB : PyFile := { size := 10, mtime := mkRat 15 4, content := 2 }

/-- Claim C7, witness: the skip characterization applied to two
concrete files whose sizes agree and whose mtimes agree once truncated
to seconds. -/
theorem C7_witness : (smart_copy2 fileA (some fileB)).2 = true :=
  ((C7_thm fileA (some fileB)).1).mpr ⟨fileB, rfl, by decide, by decide⟩

/-- Claim C8: when an entry's named service is observed running and the
stop call fails, the loop step counts exactly one failure and changes
nothing else — no copy is attempted (`copies` unchanged), the service
is not recorded for restart (`restart` unchanged), no record is added —
and the loop goes on to process the remaining entries from that
state. -/
theorem C8_thm (expand : String → PyPath) (existingMap : List (PyPath × String))
    (item : ConfigItem) (env : EntryEnv) (rest : List (ConfigItem × EntryEnv))
    (st : BackupState)
    (hsvc : pyTruthyOpt (normalize_path_item item).service = true)
    (hrun : get_service_status env.queryOut = some ("running"))
    (hstop : (stop_service env.stopEnv 30).ok = false) :
    processEntry expand existingMap st item env = { st with fail := st.fail + 1 } ∧
    backupFold expand existingMap ((item, env) :: rest) st
      = backupFold expand existingMap rest { st with fail := st.fail + 1 } := by
  have h1 : processEntry expand existingMap st item env = { st with fail := st.fail + 1 } := by
    simp [processEntry, hsvc, hrun, hstop]
  exact ⟨h1, by rw [backupFold, h1]⟩

/-- A stop environment for a service that reports running and never
reaches the stopped state within the timeout. -/
def stuckStopEnv : StopEnv :=
  { initialQuery := some (runningMsg), stopCmdRaises := false,
    polls := fun _ => some (runningMsg) }

/-- An entry environment whose service query reports running and whose
stop call times out. -/
def envStuckSvc : EntryEnv :=
  { queryOut := some (runningMsg)
    stopEnv := stuckStopEnv
    pathExists := true
    isFile := false
    copyOk := true }

/-- Claim C8, witness: the theorem applied to a concrete entry whose
service is running and whose stop call polls out. -/
theorem C8_witness :
    processEntry (fun _ => ["C:", "p"]) [] initState
        (ConfigItem.obj ("p") (some ("Svc")) [] none) envStuckSvc
      = { initState with fail := 1 } :=
  (C8_thm (fun _ => ["C:", "p"]) [] (ConfigItem.obj ("p") (some ("Svc")) [] none)
    envStuckSvc [] initState (by decide) (by decide) (by decide)).1

mutual
/-- No name from the effective exclude set survives anywhere in the
tree produced by `copytree`. -/
theorem copytree_excludes (ex : List String) : ∀ (t : FsTree) (n : String),
    n ∈ treeNames (copytree ex t) → n ∉ all_excludes ex
  | .file f, n, hn => by simp [copytree, treeNames] at hn
  | .dir ch, n, hn => by
    simp only [copytree, treeNames] at hn
    rcases copyForest_excludes ex (make_ignore_func ex (forestNames ch)) ch n hn with
      ⟨hmem, hnig⟩ | h
    · intro hex
      apply hnig
      simp only [make_ignore_func, List.mem_filter, decide_eq_true_eq]
      exact ⟨hmem, hex⟩
    · exact h
/-- A name surviving one directory level of `copytree` either was a
non-ignored top-level name of that directory or, deeper down, avoids
the effective exclude set. -/
theorem copyForest_excludes (ex ign : List String) : ∀ (f : FsForest) (n : String),
    n ∈ forestAllNames (copyForest ex ign f) →
    (n ∈ forestNames f ∧ n ∉ ign) ∨ n ∉ all_excludes ex
  | .nil, n, hn => by simp [copyForest, forestAllNames] at hn
  | .cons n0 t0 rest, n, hn => by
    simp only [copyForest] at hn
    by_cases hig : n0 ∈ ign
    · rw [if_pos hig] at hn
      rcases copyForest_excludes ex ign rest n hn with ⟨hm, hni⟩ | h
      · exact Or.inl ⟨by simp [forestNames, hm], hni⟩
      · exact Or.inr h
    · rw [if_neg hig] at hn
      simp only [forestAllNames] at hn
      rcases List.mem_cons.mp hn with heq | htail
      · subst heq
        exact Or.inl ⟨by simp [forestNames], hig⟩
      · rcases List.mem_append.mp htail with h1 | h2
        · exact Or.inr (copytree_excludes ex t0 n h1)
        · rcases copyForest_excludes ex ign rest n h2 with ⟨hm, hni⟩ | h
          · exact Or.inl ⟨by simp [forestNames, hm], hni⟩
          · exact Or.inr h
end

/-- Claim C9: the effective exclude set of a directory backup is the
fixed baseline unioned with the caller-supplied names, and `copytree`
applies it by exact name match at every directory level, so no entry
whose name is in the set appears anywhere, at any depth, in the tree it
creates. -/
theorem C9_thm (exclude_list : List String) (t : FsTree) (n : String) :
    (n ∈ all_excludes exclude_list ↔ n ∈ DEFAULT_EXCLUDE_FILES ∨ n ∈ exclude_list) ∧
    (n ∈ treeNames (copytree exclude_list t) → n ∉ all_excludes exclude_list) :=
  ⟨List.mem_append, copytree_excludes exclude_list t n⟩

/-- A directory holding a `cache` subtree and a `data` file. -/
def sampleTree : FsTree :=
  .dir (.cons ("cache")
          (.dir (.cons ("inner") (.file { size := 1, mtime := 0, content := 0 }) .nil))
          (.cons ("data") (.file { size := 2, mtime := 0, content := 1 }) .nil))

/-- Claim C9, witness: the theorem applied to a concrete tree copied
with exclude list `["cache"]`; `data` survives the copy and is indeed
outside the effective exclude set. -/
theorem C9_witness : ("data") ∉ all_excludes ["cache"] :=
  (C9_thm ["cache"] sampleTree ("data")).2 (by decide)

/-- Claim C10: for an entry that resolves to a single file, the copy is
performed through the file branch, whose copy action carries no exclude
set at all — even when the file's own name is a member of the effective
exclude set — and the entry succeeds. -/
theorem C10_thm (expand : String → PyPath) (existingMap : List (PyPath × String))
    (item : ConfigItem) (env : EntryEnv) (st : BackupState)
    (hs : (normalize_path_item item).service = none)
    (hp : env.pathExists = true) (hf : env.isFile = true) (hc : env.copyOk = true)
    (_hex : basename (expand ((normalize_path_item item).path))
        ∈ all_excludes ((normalize_path_item item).exclude)) :
    (processEntry expand existingMap st item env).copies
      = st.copies ++ [CopyAction.fileCopy (expand ((normalize_path_item item).path))
          (resolve_backup_name (expand ((normalize_path_item item).path)) existingMap
            ((normalize_path_item item).destination))] ∧
    (processEntry expand existingMap st item env).success = st.success + 1 := by
  constructor <;> simp [processEntry, hs, hp, hf, hc, pyTruthyOpt]

/-- An environment for a single-file entry whose copy succeeds. -/
def envOkFile : EntryEnv :=
  { queryOut := none
    stopEnv := idleStopEnv
    pathExists := true
    isFile := true
    copyOk := true }

/-- Claim C10, witness: the theorem applied to a file whose name
`Thumbs.db` belongs to the baseline exclude set; the entry still
succeeds. -/
theorem C10_witness :
    (processEntry (fun _ => ["C:", "Thumbs.db"]) [] initState
        (ConfigItem.str ("f")) envOkFile).success = 1 :=
  (C10_thm (fun _ => ["C:", "Thumbs.db"]) [] (ConfigItem.str ("f")) envOkFile
    initState rfl rfl rfl rfl (by decide)).2

end FolderPy
